import Mathlib

/-!
Verification of the Legal Document Analyzer core (document classifier,
report assembler, analysis orchestrator, and in-memory storage layer),
shallowly embedded from `src/App.tsx` and `src/storage.ts`.

Strings are modelled as Lean `String`, operated upon through their
character lists; JavaScript `String.prototype.includes`,
`String.prototype.toLowerCase` (ASCII range, as used by the keyword
checks) and the single regex `/deed\s+of\s+sale/i` are given explicit
executable definitions below.
-/

set_option autoImplicit false

namespace LDA

/-- ASCII lowercasing of one character, matching `Char.toLower` and the
behaviour of JS `toLowerCase` on the ASCII letters the classifier keys on. -/
def charLower (c : Char) : Char :=
  if 65 ≤ c.toNat ∧ c.toNat ≤ 90 then Char.ofNat (c.toNat + 32) else c

/-- `s.toLowerCase()` of the source, applied characterwise. -/
def strLower (s : String) : String :=
  ⟨s.data.map charLower⟩

/-- Does `pre` occur as a prefix of `l`? (Boolean, by direct recursion.) -/
def prefixMatch : List Char → List Char → Bool
  | [], _ => true
  | _ :: _, [] => false
  | p :: ps, c :: cs => p = c && prefixMatch ps cs

/-- Does `needle` occur as a contiguous run inside `hay`? -/
def subMatch (needle : List Char) : List Char → Bool
  | [] => prefixMatch needle []
  | c :: cs => prefixMatch needle (c :: cs) || subMatch needle cs

/-- JS `hay.includes(needle)`: substring containment. -/
def includes (hay needle : String) : Bool :=
  subMatch needle.data hay.data

/-- JS regex `\s` on the characters relevant here (space, tab, LF, CR, VT, FF). -/
def isJsWs (c : Char) : Bool :=
  c = ' ' || c = '\t' || c = '\n' || c = '\r' || c = Char.ofNat 11 || c = Char.ofNat 12

/-- Drop a (possibly empty) run of whitespace. -/
def dropWs : List Char → List Char
  | [] => []
  | c :: cs => if isJsWs c then dropWs cs else c :: cs

/-- Require at least one whitespace character, then drop the run (`\s+`). -/
def dropWsPlus : List Char → Option (List Char)
  | [] => none
  | c :: cs => if isJsWs c then some (dropWs cs) else none

/-- Strip a literal from the front, returning the rest on success. -/
def stripLit : List Char → List Char → Option (List Char)
  | [], rest => some rest
  | _ :: _, [] => none
  | p :: ps, c :: cs => if p = c then stripLit ps cs else none

/-- Match the regex `deed\s+of\s+sale` at the head of `cs`. -/
def deedOfSaleAt (cs : List Char) : Bool :=
  match stripLit "deed".data cs with
  | none => false
  | some r1 =>
    match dropWsPlus r1 with
    | none => false
    | some r2 =>
      match stripLit "of".data r2 with
      | none => false
      | some r3 =>
        match dropWsPlus r3 with
        | none => false
        | some r4 => (stripLit "sale".data r4).isSome

/-- `textLower.match(/deed\s+of\s+sale/i)` truthiness: the pattern occurs
somewhere in the (already lowercased) text. -/
def deedOfSaleMatch : List Char → Bool
  | [] => false
  | c :: cs => deedOfSaleAt (c :: cs) || deedOfSaleMatch cs

/-! ## Classifier (`simulateLegalAnalysis`, src/App.tsx lines 167-291) -/

/-- `documentType || 'Unknown'`: JS treats `null` and `""` as falsy. -/
def initialType (documentType : Option String) : String :=
  match documentType with
  | none => "Unknown"
  | some s => if s = "" then "Unknown" else s

/-- Condition of the first rule (App.tsx lines 179-180): bond paper. -/
def bondRule (textLower docTypeLower : String) : Bool :=
  includes textLower "bond" || includes textLower "stamp paper" ||
    includes docTypeLower "bond"

/-- Condition of the second rule (App.tsx lines 185-187): sale deed. -/
def saleRule (textLower docTypeLower : String) : Bool :=
  includes textLower "sale deed" || includes textLower "sale-deed" ||
    includes textLower "sale agreement" || deedOfSaleMatch textLower.data ||
    includes docTypeLower "sale" || includes docTypeLower "deed"

/-- Condition of the third rule (App.tsx lines 192-196): property document. -/
def propertyRule (textLower docTypeLower : String) : Bool :=
  includes textLower "property" || includes textLower "real estate" ||
    includes textLower "land" || includes textLower "apartment" ||
    includes textLower "house" || includes textLower "flat" ||
    includes textLower "conveyance" || includes textLower "title" ||
    includes textLower "transfer" || includes docTypeLower "property"

/-- Label resolution of `simulateLegalAnalysis` (App.tsx lines 172-198):
start at the declared type (or `"Unknown"`), then let the three keyword
rules overwrite it in order, so a later match wins. Both lowercased
strings are computed once, from the text and the initial type. -/
def resolveLabel (documentType : Option String) (text : String) : String :=
  let actualType0 := initialType documentType
  let textLower := strLower text
  let docTypeLower := strLower actualType0
  let t1 := if bondRule textLower docTypeLower then "Bond Paper" else actualType0
  let t2 := if saleRule textLower docTypeLower then "Sale Deed" else t1
  if propertyRule textLower docTypeLower then "Property Document" else t2

/-- The `documentTypes` list of App.tsx line 171. -/
def documentTypes : List String :=
  ["Agreement", "Deed", "Invoice", "Bond Paper", "Property Document",
   "Sale Deed", "Unknown"]

/-- The fixed `analysisDetails` block (App.tsx lines 285-289). -/
structure AnalysisDetails where
  languageValidity : Bool
  clauseCompletenessScore : ℚ
  legalTerminologyAccuracy : ℚ
deriving Repr, DecidableEq

/-- The object returned by `simulateLegalAnalysis` (App.tsx lines 272-290). -/
structure ClassificationResult where
  isValid : Bool
  complianceStatus : String
  issues : List String
  warnings : List String
  recommendations : List String
  documentType : String
  legalFrameworks : List String
  analysisDetails : AnalysisDetails
deriving Repr, DecidableEq

/-- The per-label content chain of App.tsx lines 209-270, returning
`(issues, warnings, recommendations)` for the resolved label. -/
def contentFor (actualType : String) : List String × List String × List String :=
  if actualType = "Agreement" then
    ([],
     ["Recommended: Add explicit clause for maintenance responsibilities"],
     ["Specific clause regarding security deposit return timeline",
      "Clear definition of 'normal wear and tear'",
      "Updated reference to recent Supreme Court judgment on rental caps"])
  else if actualType = "Deed" then
    ([],
     ["Consider adding more specific property demarcation details"],
     ["Include latest amendments to the Registration Act, 1908",
      "Add clause related to digital signature validity",
      "Reference the most recent stamp duty regulations"])
  else if actualType = "Invoice" then
    ([],
     ["GST details should be more prominently displayed"],
     ["Include HSN/SAC codes for all items",
      "Add payment terms with reference to Late Payment Act",
      "Include cancellation and refund policy"])
  else if actualType = "Bond Paper" then
    ([],
     ["Verify stamp paper value matches transaction amount requirements"],
     ["Include notarization details with registration number",
      "Add proper witness attestation with ID details",
      "Verify with the Indian Stamp Act for the appropriate stamp duty value",
      "Include e-stamping certificate details if using e-stamped paper"])
  else if actualType = "Sale Deed" then
    ([],
     ["Ensure property boundaries match those in land records"],
     ["Verify that stamp duty paid corresponds to current market value",
      "Include complete chain of title documents as annexures",
      "Ensure property tax receipts are attached and up to date",
      "Include all required witness signatures with their verified ID details",
      "Register with Sub-Registrar Office within the statutory time limit"])
  else if actualType = "Property Document" then
    ([],
     ["Property boundaries should be clearly defined with survey numbers"],
     ["Include verification of property title from local authorities",
      "Ensure all co-owners have signed with proper ID verification",
      "Reference latest RERA regulations if applicable",
      "Include clear encumbrance certificate details",
      "Verify property tax payment status and include documentation"])
  else
    (["Document type cannot be determined", "Missing standard legal clauses"],
     ["Document may not be legally valid",
      "Format does not match any standard template"],
     ["Use a standard legal template",
      "Consult with a legal professional",
      "Add proper identification and authentication elements"])

/-- The fixed `legalFrameworks` list attached to every result
(App.tsx lines 279-284). -/
def baseFrameworks : List String :=
  ["Registration Act, 1908", "Indian Stamp Act",
   "Transfer of Property Act, 1882", "Indian Contract Act, 1872"]

/-- `simulateLegalAnalysis` (App.tsx lines 167-291): resolve the label by
the three keyword rules, derive validity and compliance status, and pick
the fixed content for the resolved label. -/
def simulateLegalAnalysis (text : String) (documentType : Option String) :
    ClassificationResult :=
  let actualType := resolveLabel documentType text
  let isValid := actualType != "Unknown"
  let complianceStatus := if isValid then "compliant" else "non-compliant"
  let content := contentFor actualType
  { isValid := isValid
    complianceStatus := complianceStatus
    issues := content.1
    warnings := content.2.1
    recommendations := content.2.2
    documentType := actualType
    legalFrameworks := baseFrameworks
    analysisDetails :=
      { languageValidity := true
        clauseCompletenessScore := if isValid then 0.85 else 0.45
        legalTerminologyAccuracy := if isValid then 0.9 else 0.6 } }

/-! ## Report assembler (App.tsx lines 70-115) -/

/-- The `complianceDetails` object: either the "valid" shape of lines
71-83 (whose three trailing options are the property-specific fields of
lines 108-110, absent unless set) or the "invalid" shape of lines 85-98. -/
inductive ComplianceDetails where
  | valid (validityPeriod : String)
      (registrationRequired stampDutyPaid properWitnessAttestation : Bool)
      (notarizationStatus governmentDepartmentApproval : String)
      (standardsCompliance : List String)
      (reraCompliance boundaryVerification encumbranceStatus : Option String)
  | invalid (missingElements nonComplianceRisks : List String)
deriving Repr, DecidableEq

/-- A classification result with `complianceDetails` attached and
`legalFrameworks` possibly extended (the state of `analysisResults`
after App.tsx line 115). -/
structure EnrichedResult where
  base : ClassificationResult
  legalFrameworks : List String
  complianceDetails : ComplianceDetails
deriving Repr, DecidableEq

/-- The `standardsCompliance` list of App.tsx lines 78-82. -/
def validStandards : List String :=
  ["Ministry of Law and Justice - Document Standards 2021",
   "Digital India Initiative - E-Document Guidelines",
   "Indian Registration Act Requirements"]

/-- The `missingElements` list of App.tsx lines 86-91. -/
def invalidMissing : List String :=
  ["Proper digital signatures", "Mandatory disclosure clauses",
   "Required government stamps", "Authentication watermarks"]

/-- The `nonComplianceRisks` list of App.tsx lines 92-97. -/
def invalidRisks : List String :=
  ["Document may not be legally enforceable",
   "Could be rejected by government authorities",
   "May face challenges in court proceedings",
   "Potential penalties for non-compliance"]

/-- The "valid" compliance details of App.tsx lines 71-83. -/
def validDetails : ComplianceDetails :=
  .valid "5 years from date of execution" true true true "Complete" "Verified"
    validStandards none none none

/-- The "invalid" compliance details of App.tsx lines 85-98. -/
def invalidDetails : ComplianceDetails :=
  .invalid invalidMissing invalidRisks

/-- The "valid" details after property-specific enrichment
(App.tsx lines 107-110). -/
def propertyValidDetails : ComplianceDetails :=
  .valid "5 years from date of execution" true true true "Complete" "Verified"
    validStandards (some "Verified") (some "Completed") (some "Clear")

/-- The two framework strings appended for property documents
(App.tsx lines 103-104). -/
def propertyFrameworks : List String :=
  ["Real Estate (Regulation and Development) Act, 2016",
   "Indian Registration Act, 1908 (property specific sections)"]

/-- Report assembly, App.tsx lines 70-115: attach one of the two
compliance-details shapes according to validity, then, when the resolved
label is `Property Document`, push two extra framework strings
unconditionally and enrich whichever shape is present. -/
def assembleReport (r : ClassificationResult) : EnrichedResult :=
  let cd := if r.isValid then validDetails else invalidDetails
  if r.documentType = "Property Document" then
    let lf := r.legalFrameworks ++ propertyFrameworks
    let cd2 :=
      if r.isValid then
        match cd with
        | .valid a b c d e f g _ _ _ =>
            .valid a b c d e f g (some "Verified") (some "Completed") (some "Clear")
        | other => other
      else
        match cd with
        | .invalid me ncr =>
            .invalid (me ++ ["RERA registration details"])
              (ncr ++ ["Potential boundary disputes"])
        | other => other
    { base := r, legalFrameworks := lf, complianceDetails := cd2 }
  else
    { base := r, legalFrameworks := r.legalFrameworks, complianceDetails := cd }

/-! ## Data model (src/schema.ts) and storage layer (src/storage.ts)

Timestamps are modelled by a logical clock (`now : Nat`) ticking on each
record creation; ids are the auto-increment counters of `MemStorage`.
The JS `Map`s preserve insertion order and, in this program, only ever
receive fresh keys for analyses, so the analyses map is embedded as an
insertion-ordered list; `Map.prototype.set` on an existing document key
replaces the value in place, embedded as an order-preserving `List.map`. -/

/-- A row of the `documents` table (schema.ts). -/
structure Document where
  id : Nat
  userId : Nat
  fileName : String
  fileType : String
  fileSize : Nat
  documentType : Option String
  status : String
  uploadedAt : Nat
  content : String
deriving Repr, DecidableEq

/-- The serialized `analysisData` payload: `JSON.stringify({})`,
`JSON.stringify(analysisResults)`, or `JSON.stringify({error:
"Analysis failed"})`, kept structured rather than as a string. -/
inductive AnalysisData where
  | emptyObj
  | report (r : EnrichedResult)
  | errorMarker
deriving Repr, DecidableEq

/-- `InsertAnalysis` (schema.ts `insertAnalysisSchema`). -/
structure InsertAnalysis where
  documentId : Nat
  isValid : Option Bool
  complianceStatus : String
  issuesCount : Nat
  warnings : List String
  recommendations : List String
  analysisData : AnalysisData
deriving Repr, DecidableEq

/-- A row of the `analyses` table: the insert payload plus the id and
creation timestamp assigned by `MemStorage.createAnalysis`. -/
structure Analysis extends InsertAnalysis where
  id : Nat
  createdAt : Nat
deriving Repr, DecidableEq

/-- The state of `MemStorage` (storage.ts lines 30-49), restricted to
the document and analysis collections the analyzer touches. -/
structure MemStorage where
  documents : List Document
  analyses : List Analysis
  currentDocumentId : Nat
  currentAnalysisId : Nat
  now : Nat
deriving Repr, DecidableEq

/-- `MemStorage.createAnalysis` (storage.ts lines 114-124): take a fresh
id from the counter, stamp the creation time, and insert a new record. -/
def MemStorage.createAnalysis (st : MemStorage) (ins : InsertAnalysis) :
    Analysis × MemStorage :=
  let a : Analysis :=
    { toInsertAnalysis := ins, id := st.currentAnalysisId, createdAt := st.now }
  (a, { st with analyses := st.analyses ++ [a],
                currentAnalysisId := st.currentAnalysisId + 1,
                now := st.now + 1 })

/-- `MemStorage.getAnalysis` (storage.ts lines 126-128). -/
def MemStorage.getAnalysis (st : MemStorage) (id : Nat) : Option Analysis :=
  st.analyses.find? (fun a => a.id == id)

/-- `MemStorage.getAnalysisByDocumentId` (storage.ts lines 130-134):
`Array.from(map.values()).find(...)` scans in insertion order and
returns the first record whose `documentId` matches. -/
def MemStorage.getAnalysisByDocumentId (st : MemStorage) (documentId : Nat) :
    Option Analysis :=
  st.analyses.find? (fun a => a.documentId == documentId)

/-- `MemStorage.getDocument` (storage.ts lines 83-85). -/
def MemStorage.getDocument (st : MemStorage) (id : Nat) : Option Document :=
  st.documents.find? (fun d => d.id == id)

/-- `MemStorage.updateDocumentStatus` (storage.ts lines 93-101): fetch
the document, and when present store a copy with the new status under
the same key (order-preserving); `undefined` when the id is unknown. -/
def MemStorage.updateDocumentStatus (st : MemStorage) (id : Nat)
    (status : String) : Option Document × MemStorage :=
  match st.getDocument id with
  | none => (none, st)
  | some doc =>
    let updated := { doc with status := status }
    let docs := st.documents.map (fun d => if d.id == id then updated else d)
    (some updated, { st with documents := docs })

/-! ## Analysis orchestrator (`analyzeDocument`, App.tsx lines 43-150)

The storage collaborator may throw on any call; this is modelled by an
oracle deciding, per storage call (numbered in call order within the
run), whether that call throws. A throwing call mutates nothing. The
orchestrator is a function to `Except Unit Analysis` paired with the
final run state: `Except.error` means an exception escaped to the
caller, `Except.ok` a resolved promise. -/

/-- Which storage calls of a run throw (`true` at call index n =
the n-th storage call of the run throws). -/
structure Oracle where
  fails : Nat → Bool

/-- An oracle whose storage never throws (the behaviour of the real
`MemStorage`, whose methods are total). -/
def neverFails : Oracle := ⟨fun _ => false⟩

/-- An oracle whose every storage call throws. -/
def alwaysFails : Oracle := ⟨fun _ => true⟩

/-- Run state threaded through the orchestrator: the store plus the
number of storage calls made so far. -/
structure RunState where
  store : MemStorage
  calls : Nat
deriving Repr, DecidableEq

/-- Perform one storage call under the oracle: at a failing index the
store is untouched and the exception propagates, otherwise the
operation's effect applies. Either way the call counter advances. -/
def stCall {α : Type} (o : Oracle) (f : MemStorage → α × MemStorage)
    (s : RunState) : Except Unit α × RunState :=
  if o.fails s.calls then
    (.error (), { s with calls := s.calls + 1 })
  else
    let (a, st2) := f s.store
    (.ok a, { store := st2, calls := s.calls + 1 })

/-- `extractTextFromDocument` (App.tsx lines 152-165): the placeholder
template string; `${document.documentType}` interpolates `null` as the
text "null" and `documentType?.toLowerCase() || 'document'` falls back
on `null` or the empty string. -/
def extractTextFromDocument (d : Document) : String :=
  "Sample text for document " ++ d.fileName ++ " of type " ++
    (match d.documentType with | none => "null" | some s => s) ++ ". \n" ++
    "This document appears to be a legal " ++
    (match d.documentType with
     | none => "document"
     | some s => if s = "" then "document" else strLower s) ++ " \n" ++
    "under Indian law with some standard clauses and provisions."

/-- The pending entry persisted first (App.tsx lines 45-53). -/
def initialAnalysisFor (docId : Nat) : InsertAnalysis :=
  { documentId := docId, isValid := none, complianceStatus := "processing",
    issuesCount := 0, warnings := [], recommendations := [],
    analysisData := .emptyObj }

/-- The entry carrying the final results (App.tsx lines 118-126). -/
def updatedAnalysisFor (docId : Nat) (e : EnrichedResult) : InsertAnalysis :=
  { documentId := docId, isValid := some e.base.isValid,
    complianceStatus := e.base.complianceStatus,
    issuesCount := e.base.issues.length, warnings := e.base.warnings,
    recommendations := e.base.recommendations, analysisData := .report e }

/-- The entry persisted by the catch block (App.tsx lines 137-145). -/
def errorAnalysisFor (docId : Nat) : InsertAnalysis :=
  { documentId := docId, isValid := some false, complianceStatus := "error",
    issuesCount := 1, warnings := ["Analysis failed due to an error"],
    recommendations := ["Please try again or contact support"],
    analysisData := .errorMarker }

/-- `analyzeDocument` (App.tsx lines 43-150). The initial placeholder
insert happens before the `try`, so its exception escapes; inside the
`try`, text synthesis, classification and report assembly are pure, the
status update and the final insert may throw into the `catch`, whose
own two storage calls are unguarded and so escape if they throw. -/
def analyzeDocument (o : Oracle) (doc : Document) (s0 : RunState) :
    Except Unit Analysis × RunState :=
  match stCall o (fun st => st.createAnalysis (initialAnalysisFor doc.id)) s0 with
  | (.error e, s1) => (.error e, s1)
  | (.ok _, s1) =>
    let documentContent := extractTextFromDocument doc
    let analysisResults := simulateLegalAnalysis documentContent doc.documentType
    let enriched := assembleReport analysisResults
    let tryResult : Except Unit Analysis × RunState :=
      match stCall o (fun st => st.updateDocumentStatus doc.id
          (if enriched.base.isValid then "valid" else "invalid")) s1 with
      | (.error e, s2) => (.error e, s2)
      | (.ok _, s2) =>
        stCall o (fun st => st.createAnalysis (updatedAnalysisFor doc.id enriched)) s2
    match tryResult with
    | (.ok a, s3) => (.ok a, s3)
    | (.error _, s3) =>
      match stCall o (fun st => st.updateDocumentStatus doc.id "error") s3 with
      | (.error e, s4) => (.error e, s4)
      | (.ok _, s4) =>
        stCall o (fun st => st.createAnalysis (errorAnalysisFor doc.id)) s4

/-- Did the promise resolve (no exception escaped)? -/
def resolved {α : Type} : Except Unit α → Bool
  | .ok _ => true
  | .error _ => false

/-! ## Storage and run lemmas -/

/-- Replacing the matching document in place keeps it findable: the
order-preserving write of `updateDocumentStatus` leaves the first match
for `id` equal to the written value. -/
theorem find_map_update (l : List Document) (id : Nat) (u : Document)
    (hu : u.id = id) (h : ∃ x ∈ l, x.id = id) :
    (l.map (fun d => if d.id == id then u else d)).find? (fun d => d.id == id)
      = some u := by
  induction l with
  | nil => simp at h
  | cons d t ih =>
    rcases h with ⟨x, hx, hxid⟩
    by_cases hd : d.id = id
    · simp [hd, hu]
    · have hbeq : (d.id == id) = false := by simp [hd]
      rcases List.mem_cons.mp hx with rfl | hmem
      · exact absurd hxid hd
      · rw [List.map_cons]
        rw [List.find?_cons_of_neg]
        · exact ih ⟨x, hmem, hxid⟩
        · simp [hbeq]

/-- After `updateDocumentStatus` on a stored document, the stored copy
carries the new status; the analyses and counters are untouched. -/
theorem getDocument_after_update (st : MemStorage) (id : Nat) (status : String)
    (d : Document) (hd : st.getDocument id = some d) :
    (st.updateDocumentStatus id status).2.getDocument id
        = some { d with status := status } ∧
    (st.updateDocumentStatus id status).1 = some { d with status := status } ∧
    (st.updateDocumentStatus id status).2.analyses = st.analyses ∧
    (st.updateDocumentStatus id status).2.currentAnalysisId
        = st.currentAnalysisId ∧
    (st.updateDocumentStatus id status).2.now = st.now := by
  have hdup := hd
  unfold MemStorage.getDocument at hdup
  have hpred := List.find?_some hdup
  have hdid : d.id = id := by
    simp only [] at hpred
    exact eq_of_beq hpred
  unfold MemStorage.updateDocumentStatus
  rw [hd]
  refine ⟨?_, rfl, rfl, rfl, rfl⟩
  unfold MemStorage.getDocument
  exact find_map_update _ _ _ hdid ⟨d, List.mem_of_find?_eq_some hdup, hdid⟩

/-- `updateDocumentStatus` never touches the analyses collection. -/
theorem updateDocumentStatus_analyses (st : MemStorage) (i : Nat) (s : String) :
    (st.updateDocumentStatus i s).2.analyses = st.analyses := by
  unfold MemStorage.updateDocumentStatus
  cases st.getDocument i <;> simp

/-- `updateDocumentStatus` never touches the analysis id counter. -/
theorem updateDocumentStatus_currentAnalysisId (st : MemStorage) (i : Nat)
    (s : String) :
    (st.updateDocumentStatus i s).2.currentAnalysisId
      = st.currentAnalysisId := by
  unfold MemStorage.updateDocumentStatus
  cases st.getDocument i <;> simp

/-- `updateDocumentStatus` does not advance the clock. -/
theorem updateDocumentStatus_now (st : MemStorage) (i : Nat) (s : String) :
    (st.updateDocumentStatus i s).2.now = st.now := by
  unfold MemStorage.updateDocumentStatus
  cases st.getDocument i <;> simp

/-- Run shape when no storage call throws: placeholder insert, status
update from validity, final insert, three calls in total. -/
theorem run_success (o : Oracle) (doc : Document) (st : MemStorage)
    (h0 : o.fails 0 = false) (h1 : o.fails 1 = false) (h2 : o.fails 2 = false) :
    analyzeDocument o doc ⟨st, 0⟩ =
      (let e := assembleReport
        (simulateLegalAnalysis (extractTextFromDocument doc) doc.documentType)
       let st1 := (st.createAnalysis (initialAnalysisFor doc.id)).2
       let st2 := (st1.updateDocumentStatus doc.id
         (if e.base.isValid then "valid" else "invalid")).2
       (Except.ok (st2.createAnalysis (updatedAnalysisFor doc.id e)).1,
        ⟨(st2.createAnalysis (updatedAnalysisFor doc.id e)).2, 3⟩)) := by
  simp [analyzeDocument, stCall, h0, h1, h2]

/-- Run shape when the placeholder insert itself throws: the exception
escapes and nothing is written. -/
theorem run_fail0 (o : Oracle) (doc : Document) (st : MemStorage)
    (h0 : o.fails 0 = true) :
    analyzeDocument o doc ⟨st, 0⟩ = (Except.error (), ⟨st, 1⟩) := by
  simp [analyzeDocument, stCall, h0]

/-- Run shape when the status update throws and the catch path
succeeds: the error record is persisted and returned. -/
theorem run_fail1 (o : Oracle) (doc : Document) (st : MemStorage)
    (h0 : o.fails 0 = false) (h1 : o.fails 1 = true)
    (h2 : o.fails 2 = false) (h3 : o.fails 3 = false) :
    analyzeDocument o doc ⟨st, 0⟩ =
      (let st1 := (st.createAnalysis (initialAnalysisFor doc.id)).2
       let st2 := (st1.updateDocumentStatus doc.id "error").2
       (Except.ok (st2.createAnalysis (errorAnalysisFor doc.id)).1,
        ⟨(st2.createAnalysis (errorAnalysisFor doc.id)).2, 4⟩)) := by
  simp [analyzeDocument, stCall, h0, h1, h2, h3]

/-- Run shape when the final insert throws and the catch path
succeeds. -/
theorem run_fail2 (o : Oracle) (doc : Document) (st : MemStorage)
    (h0 : o.fails 0 = false) (h1 : o.fails 1 = false)
    (h2 : o.fails 2 = true) (h3 : o.fails 3 = false) (h4 : o.fails 4 = false) :
    analyzeDocument o doc ⟨st, 0⟩ =
      (let e := assembleReport
        (simulateLegalAnalysis (extractTextFromDocument doc) doc.documentType)
       let st1 := (st.createAnalysis (initialAnalysisFor doc.id)).2
       let st2 := (st1.updateDocumentStatus doc.id
         (if e.base.isValid then "valid" else "invalid")).2
       let st3 := (st2.updateDocumentStatus doc.id "error").2
       (Except.ok (st3.createAnalysis (errorAnalysisFor doc.id)).1,
        ⟨(st3.createAnalysis (errorAnalysisFor doc.id)).2, 5⟩)) := by
  simp [analyzeDocument, stCall, h0, h1, h2, h3, h4]

/-- Run shape when the status update and then the catch-block status
update both throw: the exception escapes the catch. -/
theorem run_fail1_catch2 (o : Oracle) (doc : Document) (st : MemStorage)
    (h0 : o.fails 0 = false) (h1 : o.fails 1 = true) (h2 : o.fails 2 = true) :
    analyzeDocument o doc ⟨st, 0⟩ =
      (Except.error (),
       ⟨(st.createAnalysis (initialAnalysisFor doc.id)).2, 3⟩) := by
  simp [analyzeDocument, stCall, h0, h1, h2]

/-- Run shape when the status update and then the catch-block insert
throw: the exception escapes the catch. -/
theorem run_fail1_catch3 (o : Oracle) (doc : Document) (st : MemStorage)
    (h0 : o.fails 0 = false) (h1 : o.fails 1 = true)
    (h2 : o.fails 2 = false) (h3 : o.fails 3 = true) :
    analyzeDocument o doc ⟨st, 0⟩ =
      (Except.error (),
       ⟨((st.createAnalysis (initialAnalysisFor doc.id)).2.updateDocumentStatus
          doc.id "error").2, 4⟩) := by
  simp [analyzeDocument, stCall, h0, h1, h2, h3]

/-- Run shape when the final insert and then the catch-block status
update throw. -/
theorem run_fail2_catch3 (o : Oracle) (doc : Document) (st : MemStorage)
    (h0 : o.fails 0 = false) (h1 : o.fails 1 = false)
    (h2 : o.fails 2 = true) (h3 : o.fails 3 = true) :
    analyzeDocument o doc ⟨st, 0⟩ =
      (let e := assembleReport
        (simulateLegalAnalysis (extractTextFromDocument doc) doc.documentType)
       let st1 := (st.createAnalysis (initialAnalysisFor doc.id)).2
       let st2 := (st1.updateDocumentStatus doc.id
         (if e.base.isValid then "valid" else "invalid")).2
       (Except.error (), ⟨st2, 4⟩)) := by
  simp [analyzeDocument, stCall, h0, h1, h2, h3]

/-- Run shape when the final insert and then the catch-block insert
throw. -/
theorem run_fail2_catch4 (o : Oracle) (doc : Document) (st : MemStorage)
    (h0 : o.fails 0 = false) (h1 : o.fails 1 = false)
    (h2 : o.fails 2 = true) (h3 : o.fails 3 = false) (h4 : o.fails 4 = true) :
    analyzeDocument o doc ⟨st, 0⟩ =
      (let e := assembleReport
        (simulateLegalAnalysis (extractTextFromDocument doc) doc.documentType)
       let st1 := (st.createAnalysis (initialAnalysisFor doc.id)).2
       let st2 := (st1.updateDocumentStatus doc.id
         (if e.base.isValid then "valid" else "invalid")).2
       let st3 := (st2.updateDocumentStatus doc.id "error").2
       (Except.error (), ⟨st3, 5⟩)) := by
  simp [analyzeDocument, stCall, h0, h1, h2, h3, h4]

/-- Whatever the storage collaborator does after a successful first
call, the run's analyses start with the prior records followed by the
placeholder inserted before any classification work. -/
theorem analyses_shape (o : Oracle) (doc : Document) (st : MemStorage)
    (h0 : o.fails 0 = false) :
    ∃ rest, (analyzeDocument o doc ⟨st, 0⟩).2.store.analyses
      = st.analyses ++
        ({ toInsertAnalysis := initialAnalysisFor doc.id,
           id := st.currentAnalysisId, createdAt := st.now } :: rest) := by
  cases h1 : o.fails 1 with
  | false =>
    cases h2 : o.fails 2 with
    | false =>
      rw [run_success o doc st h0 h1 h2]
      exact ⟨[⟨updatedAnalysisFor doc.id (assembleReport
        (simulateLegalAnalysis (extractTextFromDocument doc) doc.documentType)),
        st.currentAnalysisId + 1, st.now + 1⟩],
        by simp [MemStorage.createAnalysis, updateDocumentStatus_analyses,
          updateDocumentStatus_currentAnalysisId, updateDocumentStatus_now]⟩
    | true =>
      cases h3 : o.fails 3 with
      | true =>
        rw [run_fail2_catch3 o doc st h0 h1 h2 h3]
        exact ⟨[], by simp [MemStorage.createAnalysis,
          updateDocumentStatus_analyses]⟩
      | false =>
        cases h4 : o.fails 4 with
        | true =>
          rw [run_fail2_catch4 o doc st h0 h1 h2 h3 h4]
          exact ⟨[], by simp [MemStorage.createAnalysis,
            updateDocumentStatus_analyses]⟩
        | false =>
          rw [run_fail2 o doc st h0 h1 h2 h3 h4]
          exact ⟨[⟨errorAnalysisFor doc.id, st.currentAnalysisId + 1,
            st.now + 1⟩],
            by simp [MemStorage.createAnalysis, updateDocumentStatus_analyses,
              updateDocumentStatus_currentAnalysisId, updateDocumentStatus_now]⟩
  | true =>
    cases h2 : o.fails 2 with
    | true =>
      rw [run_fail1_catch2 o doc st h0 h1 h2]
      exact ⟨[], by simp [MemStorage.createAnalysis]⟩
    | false =>
      cases h3 : o.fails 3 with
      | true =>
        rw [run_fail1_catch3 o doc st h0 h1 h2 h3]
        exact ⟨[], by simp [MemStorage.createAnalysis,
          updateDocumentStatus_analyses]⟩
      | false =>
        rw [run_fail1 o doc st h0 h1 h2 h3]
        exact ⟨[⟨errorAnalysisFor doc.id, st.currentAnalysisId + 1,
          st.now + 1⟩],
          by simp [MemStorage.createAnalysis, updateDocumentStatus_analyses,
            updateDocumentStatus_currentAnalysisId, updateDocumentStatus_now]⟩

/-! ## Unfolding lemmas -/

theorem simulate_documentType (text : String) (dt : Option String) :
    (simulateLegalAnalysis text dt).documentType = resolveLabel dt text := rfl

theorem simulate_isValid (text : String) (dt : Option String) :
    (simulateLegalAnalysis text dt).isValid
      = (resolveLabel dt text != "Unknown") := rfl

theorem simulate_complianceStatus (text : String) (dt : Option String) :
    (simulateLegalAnalysis text dt).complianceStatus =
      (if resolveLabel dt text != "Unknown" then "compliant"
       else "non-compliant") := rfl

theorem simulate_warnings (text : String) (dt : Option String) :
    (simulateLegalAnalysis text dt).warnings
      = (contentFor (resolveLabel dt text)).2.1 := rfl

theorem simulate_legalFrameworks (text : String) (dt : Option String) :
    (simulateLegalAnalysis text dt).legalFrameworks = baseFrameworks := rfl

/-- The label resolution with the `let`s inlined: the last matching rule
decides, falling through to the initial type. -/
theorem resolveLabel_eq (dt : Option String) (text : String) :
    resolveLabel dt text =
      (if propertyRule (strLower text) (strLower (initialType dt)) then
        "Property Document"
       else if saleRule (strLower text) (strLower (initialType dt)) then
        "Sale Deed"
       else if bondRule (strLower text) (strLower (initialType dt)) then
        "Bond Paper"
       else initialType dt) := rfl

/-- For a property document the two extra framework strings are appended
(independently of the validity branch below them). -/
theorem assembleReport_frameworks_propertyDoc (r : ClassificationResult)
    (hd : r.documentType = "Property Document") :
    (assembleReport r).legalFrameworks
      = r.legalFrameworks ++ propertyFrameworks := by
  unfold assembleReport
  simp [hd]

/-- For any other label the framework list is passed through. -/
theorem assembleReport_frameworks_other (r : ClassificationResult)
    (hd : (r.documentType == "Property Document") = false) :
    (assembleReport r).legalFrameworks = r.legalFrameworks := by
  have hne : ¬r.documentType = "Property Document" := by
    intro hEq; rw [hEq] at hd; exact absurd hd (by decide)
  unfold assembleReport
  simp [hne]

/-- A valid property document gets the enriched "valid" details. -/
theorem assembleReport_details_propertyDoc_valid (r : ClassificationResult)
    (hd : r.documentType = "Property Document") (hv : r.isValid = true) :
    (assembleReport r).complianceDetails = propertyValidDetails := by
  unfold assembleReport
  simp [hd, hv, validDetails, propertyValidDetails]

/-- A non-property document gets the plain shape chosen by validity. -/
theorem assembleReport_details_other (r : ClassificationResult)
    (hd : (r.documentType == "Property Document") = false) :
    (assembleReport r).complianceDetails
      = (if r.isValid then validDetails else invalidDetails) := by
  have hne : ¬r.documentType = "Property Document" := by
    intro hEq; rw [hEq] at hd; exact absurd hd (by decide)
  unfold assembleReport
  simp [hne]

/-- A label other than `"Deed"` never selects the Deed content branch. -/
theorem contentFor_warnings_ne_deed (s : String) (h : (s == "Deed") = false) :
    ((contentFor s).2.1
      == ["Consider adding more specific property demarcation details"])
      = false := by
  have hne : ¬s = "Deed" := by
    intro hEq; rw [hEq] at h; exact absurd h (by decide)
  unfold contentFor
  split_ifs <;> decide

/-! ## Claims -/

/-- C1: the three substring rules apply in fixed priority with
last-match-wins. A text matching both the bond rule and the property
rule resolves to `Property Document`; a text containing `"sale deed"`
with declared type `"Bond Paper"` resolves to `Sale Deed`, unless the
property rule also matches, in which case to `Property Document`. -/
theorem claim_C1_rule_priority (dt : Option String) (text : String) :
    (bondRule (strLower text) (strLower (initialType dt)) = true →
     propertyRule (strLower text) (strLower (initialType dt)) = true →
     (simulateLegalAnalysis text dt).documentType = "Property Document") ∧
    (includes (strLower text) "sale deed" = true →
     dt = some "Bond Paper" →
     (propertyRule (strLower text) (strLower (initialType dt)) = true →
        (simulateLegalAnalysis text dt).documentType = "Property Document") ∧
     (propertyRule (strLower text) (strLower (initialType dt)) = false →
        (simulateLegalAnalysis text dt).documentType = "Sale Deed")) := by
  rw [simulate_documentType, resolveLabel_eq]
  constructor
  · intro _ hp
    simp [hp]
  · intro hsd _
    constructor
    · intro hp; simp [hp]
    · intro hp
      have hsale : saleRule (strLower text) (strLower (initialType dt)) = true := by
        simp [saleRule, hsd]
      simp [hp, hsale]

/-- Witness for C1 at concrete inputs: `"bond on property"` resolves to
`Property Document`; `"sale deed"` with declared `"Bond Paper"` resolves
to `Sale Deed`; `"sale deed of land"` with declared `"Bond Paper"`
resolves to `Property Document`. -/
theorem claim_C1_rule_priority_witness :
    (simulateLegalAnalysis "bond on property" none).documentType
      = "Property Document" ∧
    (simulateLegalAnalysis "sale deed" (some "Bond Paper")).documentType
      = "Sale Deed" ∧
    (simulateLegalAnalysis "sale deed of land" (some "Bond Paper")).documentType
      = "Property Document" :=
  ⟨(claim_C1_rule_priority none "bond on property").1 (by decide) (by decide),
   ((claim_C1_rule_priority (some "Bond Paper") "sale deed").2
      (by decide) rfl).2 (by decide),
   ((claim_C1_rule_priority (some "Bond Paper") "sale deed of land").2
      (by decide) rfl).1 (by decide)⟩

/-- C2: for every pair (declaredType, text), `isValid` holds exactly
when `complianceStatus` is `"compliant"`, exactly when the resolved
label is not `"Unknown"`. -/
theorem claim_C2_validity_invariant (dt : Option String) (text : String) :
    (simulateLegalAnalysis text dt).isValid
      = ((simulateLegalAnalysis text dt).complianceStatus == "compliant") ∧
    (simulateLegalAnalysis text dt).isValid
      = ((simulateLegalAnalysis text dt).documentType != "Unknown") := by
  rw [simulate_isValid, simulate_complianceStatus, simulate_documentType]
  cases h : (resolveLabel dt text != "Unknown") <;> simp [h]

/-- C3 counterexample: with declared type `"Certificate"` and a text
matching no rule, the resolved label is `"Certificate"`, which is not
among the seven listed values — refuting the claim for arbitrary
declared-type strings. -/
theorem claim_C3_counterexample :
    (simulateLegalAnalysis "" (some "Certificate")).documentType
      = "Certificate" ∧
    documentTypes.contains
      (simulateLegalAnalysis "" (some "Certificate")).documentType = false := by
  constructor
  · rfl
  · decide

/-- C3 amended: the resolved label is one of the seven listed values or
the declared-type string itself (necessarily non-empty), returned
unchanged when no rule matches; in particular it is one of the seven
whenever the declared type is absent, empty (the `|| 'Unknown'` falsy
fallback), or itself one of the seven. -/
theorem claim_C3_label_range (dt : Option String) (text : String) :
    (simulateLegalAnalysis text dt).documentType ∈ documentTypes ∨
    (dt = some (simulateLegalAnalysis text dt).documentType ∧
     ((simulateLegalAnalysis text dt).documentType == "") = false) := by
  rw [simulate_documentType, resolveLabel_eq]
  split
  · left; decide
  · split
    · left; decide
    · split
      · left; decide
      · unfold initialType
        match dt with
        | none => left; decide
        | some s =>
          by_cases hs : s = ""
          · subst hs; left; decide
          · simp [hs, beq_eq_false_iff_ne]

/-- C8: the resolved label is never `"Deed"` (any declared type placing
the label at `"Deed"` also fires the sale-deed rule, which overwrites
it), so the Deed content branch is dead: its warning list is never the
one returned. -/
theorem claim_C8_deed_unreachable (dt : Option String) (text : String) :
    ((simulateLegalAnalysis text dt).documentType == "Deed") = false ∧
    ((simulateLegalAnalysis text dt).warnings
      == ["Consider adding more specific property demarcation details"])
      = false := by
  have hlabel : ((simulateLegalAnalysis text dt).documentType == "Deed") = false := by
    rw [simulate_documentType, resolveLabel_eq]
    split
    · decide
    · split
      · decide
      · rename_i hsale
        split
        · decide
        · cases hbeq : (initialType dt == "Deed")
          · rfl
          · exfalso
            have hEq : initialType dt = "Deed" := eq_of_beq hbeq
            rw [hEq] at hsale
            simp [saleRule] at hsale
            exact absurd hsale.2 (by decide)
  refine ⟨hlabel, ?_⟩
  rw [simulate_warnings]
  refine contentFor_warnings_ne_deed _ ?_
  rw [← simulate_documentType text dt]
  exact hlabel

/-- C5: whenever the resolved label is `Property Document`, the
assembled report's `legalFrameworks` is the 4 base frameworks plus the
RERA Act 2016 and the property-specific Registration Act reference —
exactly 6 entries — and the two extras are appended to any result with
that label regardless of its validity flag. -/
theorem claim_C5_property_frameworks (dt : Option String) (text : String)
    (r : ClassificationResult) :
    ((simulateLegalAnalysis text dt).documentType = "Property Document" →
      (assembleReport (simulateLegalAnalysis text dt)).legalFrameworks
        = baseFrameworks ++ propertyFrameworks ∧
      (assembleReport (simulateLegalAnalysis text dt)).legalFrameworks.length
        = 6) ∧
    (r.documentType = "Property Document" →
      (assembleReport r).legalFrameworks
        = r.legalFrameworks ++ propertyFrameworks) := by
  constructor
  · intro hd
    have h := assembleReport_frameworks_propertyDoc _ hd
    rw [simulate_legalFrameworks] at h
    exact ⟨h, by rw [h]; rfl⟩
  · exact fun hd => assembleReport_frameworks_propertyDoc r hd

/-- Witness for C5: the text `"property"` resolves to
`Property Document` and its report carries the 6 frameworks; a result
carrying the label with `isValid = false` still gets the two extras. -/
theorem claim_C5_property_frameworks_witness :
    (assembleReport (simulateLegalAnalysis "property" none)).legalFrameworks
      = baseFrameworks ++ propertyFrameworks ∧
    (assembleReport
      { isValid := false, complianceStatus := "non-compliant", issues := [],
        warnings := [], recommendations := [],
        documentType := "Property Document", legalFrameworks := baseFrameworks,
        analysisDetails := ⟨true, 0.45, 0.6⟩ }).legalFrameworks
      = baseFrameworks ++ propertyFrameworks :=
  ⟨((claim_C5_property_frameworks none "property"
      { isValid := false, complianceStatus := "non-compliant", issues := [],
        warnings := [], recommendations := [],
        documentType := "Property Document", legalFrameworks := baseFrameworks,
        analysisDetails := ⟨true, 0.45, 0.6⟩ }).1 (by decide)).1,
   (claim_C5_property_frameworks none "property"
      { isValid := false, complianceStatus := "non-compliant", issues := [],
        warnings := [], recommendations := [],
        documentType := "Property Document", legalFrameworks := baseFrameworks,
        analysisDetails := ⟨true, 0.45, 0.6⟩ }).2 rfl⟩

/-- C9: every classification resolved to `Property Document` is valid,
so a property-document report always carries the enriched "valid"
compliance details; whenever the invalid shape appears at all, it is the
unenriched base shape (the property strings are never pushed onto it). -/
theorem claim_C9_property_always_valid (dt : Option String) (text : String) :
    ((simulateLegalAnalysis text dt).documentType = "Property Document" →
      (simulateLegalAnalysis text dt).isValid = true ∧
      (assembleReport (simulateLegalAnalysis text dt)).complianceDetails
        = propertyValidDetails) ∧
    (∀ me ncr,
      (assembleReport (simulateLegalAnalysis text dt)).complianceDetails
        = ComplianceDetails.invalid me ncr →
      me = invalidMissing ∧ ncr = invalidRisks) := by
  have hv : (simulateLegalAnalysis text dt).documentType = "Property Document" →
      (simulateLegalAnalysis text dt).isValid = true := by
    intro hd
    rw [simulate_documentType] at hd
    rw [simulate_isValid, hd]
    decide
  constructor
  · intro hd
    exact ⟨hv hd, assembleReport_details_propertyDoc_valid _ hd (hv hd)⟩
  · intro me ncr h
    by_cases hd : (simulateLegalAnalysis text dt).documentType
        = "Property Document"
    · rw [assembleReport_details_propertyDoc_valid _ hd (hv hd)] at h
      exact absurd h (by simp [propertyValidDetails])
    · rw [assembleReport_details_other _ (beq_eq_false_iff_ne.mpr hd)] at h
      cases hval : (simulateLegalAnalysis text dt).isValid with
      | true => simp [hval, validDetails] at h
      | false =>
        simp [hval, invalidDetails] at h
        exact ⟨h.1.symm, h.2.symm⟩

/-- Witness for C9: the text `"property"` yields a valid
`Property Document` report with the enriched valid shape; the empty
input yields the base invalid shape, whose lists are the unenriched
ones. -/
theorem claim_C9_property_always_valid_witness :
    ((simulateLegalAnalysis "property" none).isValid = true ∧
     (assembleReport (simulateLegalAnalysis "property" none)).complianceDetails
       = propertyValidDetails) ∧
    (invalidMissing = invalidMissing ∧ invalidRisks = invalidRisks) :=
  ⟨(claim_C9_property_always_valid none "property").1 (by decide),
   (claim_C9_property_always_valid none "").2 invalidMissing invalidRisks
     (by decide)⟩

/-- C6 counterexample: declared type `"Stamp Paper"` with a text
containing none of the keywords resolves to `"Stamp Paper"`, not
`Bond Paper` — the bond rule checks `"stamp paper"` only in the text,
never in the declared type. -/
theorem claim_C6_counterexample :
    (simulateLegalAnalysis "xyz" (some "Stamp Paper")).documentType
      = "Stamp Paper" ∧
    ((simulateLegalAnalysis "xyz" (some "Stamp Paper")).documentType
      == "Bond Paper") = false := by
  constructor
  · rfl
  · decide

/-- C6 amended: the `"stamp paper"` keyword fires the bond rule only
through the source text: a text containing it (with no later rule
matching) resolves to `Bond Paper`, while a declared type containing
`"stamp paper"` but not `"bond"` (with `"stamp paper"` and `"bond"`
absent from the text and no later rule matching) leaves the label at
the declared type, which is then not `Bond Paper`. -/
theorem claim_C6_stamp_paper_in_text (dt : Option String) (text : String) :
    (includes (strLower text) "stamp paper" = true →
     saleRule (strLower text) (strLower (initialType dt)) = false →
     propertyRule (strLower text) (strLower (initialType dt)) = false →
     (simulateLegalAnalysis text dt).documentType = "Bond Paper") ∧
    (includes (strLower (initialType dt)) "stamp paper" = true →
     includes (strLower (initialType dt)) "bond" = false →
     includes (strLower text) "bond" = false →
     includes (strLower text) "stamp paper" = false →
     saleRule (strLower text) (strLower (initialType dt)) = false →
     propertyRule (strLower text) (strLower (initialType dt)) = false →
     (simulateLegalAnalysis text dt).documentType = initialType dt ∧
     ((simulateLegalAnalysis text dt).documentType == "Bond Paper") = false) := by
  constructor
  · intro ht hs hp
    rw [simulate_documentType, resolveLabel_eq]
    have hb : bondRule (strLower text) (strLower (initialType dt)) = true := by
      simp [bondRule, ht]
    simp [hp, hs, hb]
  · intro _ hdb htb htsp hs hp
    have hb : bondRule (strLower text) (strLower (initialType dt)) = false := by
      simp [bondRule, htb, htsp, hdb]
    have hlabel : (simulateLegalAnalysis text dt).documentType
        = initialType dt := by
      rw [simulate_documentType, resolveLabel_eq]
      simp [hp, hs, hb]
    refine ⟨hlabel, ?_⟩
    rw [hlabel]
    cases hbeq : (initialType dt == "Bond Paper")
    · rfl
    · exfalso
      have hEq : initialType dt = "Bond Paper" := eq_of_beq hbeq
      rw [hEq] at hdb
      exact absurd hdb (by decide)

/-- A run of `find?` skips a prefix holding no record for the document. -/
theorem find_append_no_match (l r : List Analysis) (i : Nat)
    (hno : ∀ b ∈ l, b.documentId ≠ i) :
    (l ++ r).find? (fun a => a.documentId == i)
      = r.find? (fun a => a.documentId == i) := by
  induction l with
  | nil => rfl
  | cons b t ih =>
    rw [List.cons_append, List.find?_cons_of_neg]
    · exact ih (fun x hx => hno x (List.mem_cons_of_mem b hx))
    · simp [hno b (List.mem_cons_self b t)]

/-- A sample uploaded document, as the routes layer would create it. -/
def docA : Document :=
  { id := 1, userId := 1, fileName := "contract.pdf",
    fileType := "application/pdf", fileSize := 10,
    documentType := some "Agreement", status := "pending",
    uploadedAt := 0, content := "" }

/-- A store holding just `docA` and no analyses. -/
def storeA : MemStorage :=
  { documents := [docA], analyses := [], currentDocumentId := 2,
    currentAnalysisId := 1, now := 1 }

/-- An oracle whose second storage call (the status update) throws. -/
def failSecondCall : Oracle := ⟨fun n => n == 1⟩

/-- A pre-existing analysis record for document 1. -/
def analysisB : Analysis :=
  { toInsertAnalysis := initialAnalysisFor 1, id := 0, createdAt := 0 }

/-- A store holding `docA` and the pre-existing record `analysisB`. -/
def storeB : MemStorage :=
  { documents := [docA], analyses := [analysisB], currentDocumentId := 2,
    currentAnalysisId := 1, now := 1 }

/-- C4 counterexample: with a storage collaborator whose every call
throws, the very first persistence call (the placeholder insert, made
before the `try`) throws and the exception escapes `analyzeDocument` —
refuting "never propagates an exception" for arbitrary collaborator
behaviour. -/
theorem claim_C4_counterexample :
    resolved (analyzeDocument alwaysFails docA ⟨storeA, 0⟩).1 = false := by
  rfl

/-- C4 amended: provided the initial placeholder insert succeeds and the
catch-path storage calls succeed, `analyzeDocument` always resolves to a
report; when the status update or the final insert throws, the resolved
report has complianceStatus `"error"`, isValid false, issuesCount 1, and
the parent document's stored status becomes `"error"`. -/
theorem claim_C4_error_handling (o : Oracle) (doc : Document) (st : MemStorage)
    (h0 : o.fails 0 = false)
    (hc1 : o.fails 1 = true → o.fails 2 = false ∧ o.fails 3 = false)
    (hc2 : o.fails 1 = false → o.fails 2 = true →
      o.fails 3 = false ∧ o.fails 4 = false) :
    resolved (analyzeDocument o doc ⟨st, 0⟩).1 = true ∧
    ((o.fails 1 = true ∨ o.fails 2 = true) →
      (∃ a, (analyzeDocument o doc ⟨st, 0⟩).1 = Except.ok a ∧
        a.complianceStatus = "error" ∧ a.isValid = some false ∧
        a.issuesCount = 1 ∧ a.warnings = ["Analysis failed due to an error"]) ∧
      (∀ d, st.getDocument doc.id = some d →
        (analyzeDocument o doc ⟨st, 0⟩).2.store.getDocument doc.id
          = some { d with status := "error" })) := by
  cases h1 : o.fails 1 with
  | true =>
    obtain ⟨h2, h3⟩ := hc1 h1
    rw [run_fail1 o doc st h0 h1 h2 h3]
    refine ⟨rfl, fun _ => ⟨⟨_, rfl, rfl, rfl, rfl, rfl⟩, ?_⟩⟩
    intro d hd
    exact (getDocument_after_update
      (st.createAnalysis (initialAnalysisFor doc.id)).2 doc.id "error" d hd).1
  | false =>
    cases h2 : o.fails 2 with
    | false =>
      rw [run_success o doc st h0 h1 h2]
      refine ⟨rfl, fun h => absurd h (by simp [h1, h2])⟩
    | true =>
      obtain ⟨h3, h4⟩ := hc2 h1 h2
      rw [run_fail2 o doc st h0 h1 h2 h3 h4]
      refine ⟨rfl, fun _ => ⟨⟨_, rfl, rfl, rfl, rfl, rfl⟩, ?_⟩⟩
      intro d hd
      have hstep1 := (getDocument_after_update
        (st.createAnalysis (initialAnalysisFor doc.id)).2 doc.id
        (if (assembleReport (simulateLegalAnalysis (extractTextFromDocument doc)
          doc.documentType)).base.isValid then "valid" else "invalid") d hd).1
      exact (getDocument_after_update _ doc.id "error" _ hstep1).1

/-- Witness for C4 amended: an oracle failing exactly the status-update
call, on a store holding the document, yields a resolved error-shaped
report and document status `"error"`. -/
theorem claim_C4_error_handling_witness :
    resolved (analyzeDocument failSecondCall docA ⟨storeA, 0⟩).1 = true ∧
    (∃ a, (analyzeDocument failSecondCall docA ⟨storeA, 0⟩).1 = Except.ok a ∧
      a.complianceStatus = "error" ∧ a.isValid = some false ∧
      a.issuesCount = 1 ∧ a.warnings = ["Analysis failed due to an error"]) ∧
    (analyzeDocument failSecondCall docA ⟨storeA, 0⟩).2.store.getDocument 1
      = some { docA with status := "error" } :=
  have h := claim_C4_error_handling failSecondCall docA storeA
    (by decide) (by decide) (by decide)
  ⟨h.1, (h.2 (Or.inl (by decide))).1, (h.2 (Or.inl (by decide))).2 docA (by decide)⟩

/-- C7: the placeholder record carries `isValid` null, status
`"processing"`, zero issues and empty lists; `createAnalysis` always
appends a brand-new record under a fresh id and never rewrites an
existing one; every run whose first call succeeds persists the
placeholder first, before any classification work; and a non-failing run
persists exactly two independent records, placeholder then final. -/
theorem claim_C7_placeholder_and_fresh_insert (o : Oracle) (doc : Document)
    (st : MemStorage) (ins : InsertAnalysis) :
    ((initialAnalysisFor doc.id).isValid = none ∧
     (initialAnalysisFor doc.id).complianceStatus = "processing" ∧
     (initialAnalysisFor doc.id).issuesCount = 0 ∧
     (initialAnalysisFor doc.id).warnings = [] ∧
     (initialAnalysisFor doc.id).recommendations = []) ∧
    ((st.createAnalysis ins).2.analyses
        = st.analyses ++ [(st.createAnalysis ins).1] ∧
     (st.createAnalysis ins).1.toInsertAnalysis = ins ∧
     (st.createAnalysis ins).1.id = st.currentAnalysisId ∧
     (∀ b ∈ st.analyses, b.id < st.currentAnalysisId →
        (b.id != (st.createAnalysis ins).1.id) = true)) ∧
    (o.fails 0 = false →
      ∃ rest, (analyzeDocument o doc ⟨st, 0⟩).2.store.analyses
        = st.analyses ++
          ({ toInsertAnalysis := initialAnalysisFor doc.id,
             id := st.currentAnalysisId, createdAt := st.now } :: rest)) ∧
    (analyzeDocument neverFails doc ⟨st, 0⟩).2.store.analyses
      = st.analyses ++
        [{ toInsertAnalysis := initialAnalysisFor doc.id,
           id := st.currentAnalysisId, createdAt := st.now },
         { toInsertAnalysis := updatedAnalysisFor doc.id (assembleReport
             (simulateLegalAnalysis (extractTextFromDocument doc)
               doc.documentType)),
           id := st.currentAnalysisId + 1, createdAt := st.now + 1 }] := by
  refine ⟨⟨rfl, rfl, rfl, rfl, rfl⟩, ⟨rfl, rfl, rfl, ?_⟩,
    analyses_shape o doc st, ?_⟩
  · intro b _ hlt
    have hid : (st.createAnalysis ins).1.id = st.currentAnalysisId := rfl
    rw [hid]
    simp only [bne_iff_ne]
    omega
  · rw [run_success neverFails doc st rfl rfl rfl]
    simp [MemStorage.createAnalysis, updateDocumentStatus_analyses,
      updateDocumentStatus_currentAnalysisId, updateDocumentStatus_now]

/-- Witness for C7 on a store with one pre-existing record: the
placeholder fields, the freshness of the next id, and the
placeholder-first shape of a concrete run. -/
theorem claim_C7_placeholder_and_fresh_insert_witness :
    (initialAnalysisFor 1).complianceStatus = "processing" ∧
    (analysisB.id != (storeB.createAnalysis (errorAnalysisFor 1)).1.id)
      = true ∧
    (∃ rest, (analyzeDocument neverFails docA ⟨storeB, 0⟩).2.store.analyses
      = storeB.analyses ++
        ({ toInsertAnalysis := initialAnalysisFor 1, id := 1,
           createdAt := 1 } :: rest)) :=
  have h := claim_C7_placeholder_and_fresh_insert neverFails docA storeB
    (errorAnalysisFor 1)
  ⟨h.1.2.1,
   h.2.1.2.2.2 analysisB (List.mem_cons_self analysisB []) (by decide),
   h.2.2.1 rfl⟩

/-- C10: `getAnalysisByDocumentId` is an insertion-order `find?`, so it
returns the earliest-inserted record for the document; consequently,
after a non-failing run of `analyzeDocument` on a document with no prior
analyses, the lookup returns the `"processing"` placeholder and never
the final result record. -/
theorem claim_C10_lookup_returns_placeholder (doc : Document)
    (st : MemStorage) (i : Nat)
    (hno : ∀ b ∈ st.analyses, b.documentId ≠ doc.id) :
    (st.getAnalysisByDocumentId i
      = st.analyses.find? (fun a => a.documentId == i)) ∧
    (∃ p f, (analyzeDocument neverFails doc ⟨st, 0⟩).1 = Except.ok f ∧
      (analyzeDocument neverFails doc ⟨st, 0⟩).2.store.getAnalysisByDocumentId
        doc.id = some p ∧
      p.complianceStatus = "processing" ∧ p.isValid = none ∧
      (p.id != f.id) = true ∧ p ≠ f) := by
  refine ⟨rfl, ?_⟩
  rw [run_success neverFails doc st rfl rfl rfl]
  refine ⟨⟨initialAnalysisFor doc.id, st.currentAnalysisId, st.now⟩,
    ⟨updatedAnalysisFor doc.id (assembleReport (simulateLegalAnalysis
       (extractTextFromDocument doc) doc.documentType)),
     st.currentAnalysisId + 1, st.now + 1⟩,
    ?_, ?_, rfl, rfl, ?_, ?_⟩
  · simp [MemStorage.createAnalysis, updateDocumentStatus_currentAnalysisId,
      updateDocumentStatus_now]
  · unfold MemStorage.getAnalysisByDocumentId
    simp only [MemStorage.createAnalysis, updateDocumentStatus_analyses]
    rw [List.append_assoc, find_append_no_match _ _ _ hno]
    simp [initialAnalysisFor]
  · simp
  · intro h
    have hid := congrArg Analysis.id h
    simp at hid

/-- Witness for C10: on the fresh store holding only `docA`, the
post-run lookup returns the placeholder, not the final record. -/
theorem claim_C10_lookup_returns_placeholder_witness :
    storeA.getAnalysisByDocumentId 1
      = storeA.analyses.find? (fun a => a.documentId == 1) ∧
    (∃ p f, (analyzeDocument neverFails docA ⟨storeA, 0⟩).1 = Except.ok f ∧
      (analyzeDocument neverFails docA
        ⟨storeA, 0⟩).2.store.getAnalysisByDocumentId 1 = some p ∧
      p.complianceStatus = "processing" ∧ p.isValid = none ∧
      (p.id != f.id) = true ∧ p ≠ f) :=
  have h := claim_C10_lookup_returns_placeholder docA storeA 1
    (fun b hb => absurd hb (List.not_mem_nil b))
  ⟨h.1, h.2⟩

/-- Witness for C6: `"issued on stamp paper"` in the text yields
`Bond Paper`; declared type `"Stamp Paper"` with text `"xyzw"` keeps the
label `"Stamp Paper"`. -/
theorem claim_C6_stamp_paper_in_text_witness :
    (simulateLegalAnalysis "issued on stamp paper" none).documentType
      = "Bond Paper" ∧
    ((simulateLegalAnalysis "xyzw" (some "Stamp Paper")).documentType
      = "Stamp Paper" ∧
     ((simulateLegalAnalysis "xyzw" (some "Stamp Paper")).documentType
      == "Bond Paper") = false) :=
  ⟨(claim_C6_stamp_paper_in_text none "issued on stamp paper").1
     (by decide) (by decide) (by decide),
   (claim_C6_stamp_paper_in_text (some "Stamp Paper") "xyzw").2
     (by decide) (by decide) (by decide) (by decide) (by decide) (by decide)⟩

end LDA
